import Mathlib

/-!
Verification development for the `ga4-mcp` repository: a model-context-protocol
adapter exposing read-only Google Analytics admin and reporting operations.

The development shallowly embeds the request-assembly logic of the repository:

* `construct_property_rn` (from `analytics_mcp/tools/utils.py`): normalization
  of a caller-supplied property identifier into a `properties/<digits>`
  resource name, with Python strings embedded as `List Char` and the relevant
  Python string primitives (`str.strip`, `str.isdigit`, `str.startswith`,
  `str.split("/")[-1]`, `int(...)`, f-string formatting) modelled explicitly.
* `run_realtime_report` (from `analytics_mcp/tools/reporting/realtime.py`):
  the pure request-assembly stage, with Python truthiness of the optional
  arguments modelled explicitly, followed by the single network call.
* `get_property_details` / `get_account_summaries` (from
  `analytics_mcp/tools/admin/info.py`): request assembly and pagination
  flattening.
* A filter-expression grammar with a canonical serializer and parser,
  modelled from the specification (the concrete serializer lives in the
  external proto client library).
-/

namespace GA4

/-! ### Python string primitives -/

/-- Model of Python `str.strip()`: removes leading and trailing whitespace. -/
def pyStrip (s : List Char) : List Char :=
  ((s.dropWhile Char.isWhitespace).reverse.dropWhile Char.isWhitespace).reverse

/-- Model of Python `str.isdigit()`: true iff the string is nonempty and all
characters are digits. -/
def pyIsDigit (s : List Char) : Bool :=
  !s.isEmpty && s.all Char.isDigit

/-- Model of Python `int(...)` applied to an all-digit string. -/
def digitsToNat (s : List Char) : Nat :=
  s.foldl (fun acc c => acc * 10 + (c.toNat - 48)) 0

/-- Model of Python `s.split("/")[-1]`: the suffix after the last `'/'`
(the whole string when no `'/'` occurs). -/
def lastSegment (s : List Char) : List Char :=
  (s.reverse.takeWhile (fun c => c != '/')).reverse

/-- Model of Python `s.startswith(p)` (first argument is the pattern `p`). -/
def listStartsWith : List Char → List Char → Bool
  | [], _ => true
  | _ :: _, [] => false
  | p :: ps, c :: cs => p == c && listStartsWith ps cs

/-- Decimal digits of a natural number, fuel-driven (fuel `n + 1` suffices). -/
def natToCharsAux : Nat → Nat → List Char
  | 0, _ => []
  | fuel + 1, n =>
    if n < 10 then [Char.ofNat (48 + n)]
    else natToCharsAux fuel (n / 10) ++ [Char.ofNat (48 + n % 10)]

/-- Model of Python `str(n)` for a nonnegative integer. -/
def natToChars (n : Nat) : List Char := natToCharsAux (n + 1) n

/-- Model of Python `str(n)` for an arbitrary integer. -/
def intToChars (n : Int) : List Char :=
  if n < 0 then '-' :: natToChars n.natAbs else natToChars n.toNat

/-! ### `construct_property_rn` (utils.py) -/

/-- A value of Python type `int | str`, the declared argument type of
`construct_property_rn`. -/
inductive PropValue where
  | int (n : Int)
  | str (s : List Char)
deriving DecidableEq

/-- The single local validation error raised by the repository:
the `ValueError("Invalid property ID: ...")` of `construct_property_rn`,
carrying the (stripped) rejected value. -/
inductive PropError where
  | invalidPropertyId (value : List Char)
deriving DecidableEq

/-- The string `"properties/"` used as prefix test and output format. -/
def propertiesSlash : List Char := "properties/".data

/-- Model of the f-string `f"properties/{property_num}"`. -/
def formatPropertyRn (n : Int) : List Char := propertiesSlash ++ intToChars n

/-- Embedding of `construct_property_rn` from `analytics_mcp/tools/utils.py`:

* an `int` input is used as the property number unconditionally;
* a `str` input is stripped; if all digits it is converted with `int(...)`;
  otherwise, if it starts with `"properties/"` and its last `"/"`-separated
  segment is all digits, that segment is converted with `int(...)`;
* when no property number was obtained, `ValueError` (InvalidPropertyId)
  is raised; otherwise the result is `f"properties/{property_num}"`. -/
def construct_property_rn : PropValue → Except PropError (List Char)
  | .int n => .ok (formatPropertyRn n)
  | .str s0 =>
    let s := pyStrip s0
    if pyIsDigit s then
      .ok (formatPropertyRn (digitsToNat s))
    else if listStartsWith propertiesSlash s then
      let numericPart := lastSegment s
      if pyIsDigit numericPart then
        .ok (formatPropertyRn (digitsToNat numericPart))
      else
        .error (.invalidPropertyId s)
    else
      .error (.invalidPropertyId s)

/-! ### Loosely-typed Python values and truthiness -/

/-- A loosely-typed Python value, as supplied by the caller for the
`dimension_filter` / `metric_filter` / `order_bys` arguments (nested dicts,
lists, strings, ints and bools). -/
inductive RawValue where
  | str (s : List Char)
  | int (n : Int)
  | bool (b : Bool)
  | list (xs : List RawValue)
  | dict (fields : List (List Char × RawValue))

/-- Python truthiness of a `RawValue`: empty strings, zero, `False`, empty
lists and empty dicts are falsy. -/
def pyTruthy : RawValue → Bool
  | .str s => !s.isEmpty
  | .int n => n != 0
  | .bool b => b
  | .list xs => !xs.isEmpty
  | .dict fs => !fs.isEmpty

/-- Python truthiness of an optional argument defaulting to `None`. -/
def pyTruthyOpt : Option RawValue → Bool
  | none => false
  | some v => pyTruthy v

/-- Python truthiness of an optional list argument defaulting to `None`. -/
def pyTruthyOptList : Option (List RawValue) → Bool
  | none => false
  | some xs => !xs.isEmpty

/-- Python truthiness of an optional int argument defaulting to `None`. -/
def pyTruthyOptInt : Option Int → Bool
  | none => false
  | some n => n != 0

/-! ### `run_realtime_report` (realtime.py): request assembly -/

/-- The arguments of `run_realtime_report` as declared in
`analytics_mcp/tools/reporting/realtime.py` (optional arguments default to
`None`, `return_property_quota` to `False`). -/
structure RunRealtimeReportArgs where
  property_id : PropValue
  dimensions : List (List Char)
  metrics : List (List Char)
  dimension_filter : Option RawValue
  metric_filter : Option RawValue
  order_bys : Option (List RawValue)
  limit : Option Int
  offset : Option Int
  return_property_quota : Bool

/-- The outbound `RunRealtimeReportRequest` proto message, with proto3 field
presence: the message-typed fields `dimension_filter` / `metric_filter` are
either unset (`none`) or set; the repeated field `order_bys` and the scalar
fields `limit` / `offset` have no presence and default to `[]` / `0`. The
loosely-typed filter and order-by mappings are stored as given (the proto
constructor of the external client library copies them field by field). -/
structure RunRealtimeReportRequest where
  property : List Char
  dimensions : List (List Char)
  metrics : List (List Char)
  return_property_quota : Bool
  dimension_filter : Option RawValue
  metric_filter : Option RawValue
  order_bys : List RawValue
  limit : Int
  offset : Int

/-- Embedding of the request-assembly stage of `run_realtime_report`
(realtime.py lines 134-159): normalize the property id, build the base
request, then conditionally assign `dimension_filter`, `metric_filter`,
`order_bys`, `limit` and `offset` — each under a Python truthiness test
(`if dimension_filter:`, `if limit:`, ...). No other validation is
performed before the network call. -/
def run_realtime_report_assemble (a : RunRealtimeReportArgs) :
    Except PropError RunRealtimeReportRequest :=
  match construct_property_rn a.property_id with
  | .error e => .error e
  | .ok prop =>
    .ok {
      property := prop
      dimensions := a.dimensions
      metrics := a.metrics
      return_property_quota := a.return_property_quota
      dimension_filter :=
        if pyTruthyOpt a.dimension_filter then a.dimension_filter else none
      metric_filter :=
        if pyTruthyOpt a.metric_filter then a.metric_filter else none
      order_bys :=
        if pyTruthyOptList a.order_bys then a.order_bys.getD [] else []
      limit := if pyTruthyOptInt a.limit then a.limit.getD 0 else 0
      offset := if pyTruthyOptInt a.offset then a.offset.getD 0 else 0
    }

/-- Embedding of the whole `run_realtime_report` tool body: assembly followed
by the single network call (realtime.py line 161), the remote service being an
external collaborator modelled as a function from requests to responses. The
second component records the network calls made, in order. -/
def run_realtime_report_run (remote : RunRealtimeReportRequest → RawValue)
    (a : RunRealtimeReportArgs) :
    Except PropError RawValue × List RunRealtimeReportRequest :=
  match run_realtime_report_assemble a with
  | .error e => (.error e, [])
  | .ok req => (.ok (remote req), [req])

/-! ### `get_property_details` and `get_account_summaries` (info.py) -/

/-- The outbound `GetPropertyRequest` proto message. -/
structure GetPropertyRequest where
  name : List Char
deriving DecidableEq

/-- Embedding of the request-assembly stage of `get_property_details`
(info.py lines 71-74). -/
def get_property_details_assemble (property_id : PropValue) :
    Except PropError GetPropertyRequest :=
  match construct_property_rn property_id with
  | .error e => .error e
  | .ok rn => .ok ⟨rn⟩

/-- Embedding of the whole `get_property_details` tool body: assembly followed
by the single network call (info.py line 75). The second component records the
network calls made, in order. -/
def get_property_details_run (remote : GetPropertyRequest → RawValue)
    (property_id : PropValue) :
    Except PropError RawValue × List GetPropertyRequest :=
  match get_property_details_assemble property_id with
  | .error e => (.error e, [])
  | .ok req => (.ok (remote req), [req])

/-- Modelled from the spec: the admin client's `list_account_summaries`
(an external collaborator) returns a pager over successive response pages;
asynchronous iteration over the pager yields every page's items, page by page
and in within-page order (§4.4: "consume all pages in order and produce one
ordered sequence combining every page's results"). -/
def pagerItems {α : Type} (pages : List (List α)) : List α := pages.flatten

/-- Embedding of `get_account_summaries` (info.py lines 30-39): the async list
comprehension applies `proto_to_dict` (here the abstract `toDict`) to each
value yielded by the pager and collects the results in order. -/
def get_account_summaries {α : Type} (toDict : α → RawValue)
    (pages : List (List α)) : List RawValue :=
  (pagerItems pages).map toDict

/-! ### Filter-expression grammar (spec §3) and canonical serialization (§4.2)

Modelled from the spec: the validated `FilterExpression` tree, its canonical
serialization to a JSON-shaped document (the wire shape produced by
`proto_to_json` with preserved proto field names and symbolic enum names), and
the discriminator-based parser of §4.1/§9. The concrete serializer and parser
live in the external proto client library, outside this repository's sources;
the model follows the spec's data model and the field names visible in
`metadata.py`. IEEE doubles are not shallowly embeddable, so the `Double`
payload is modelled as the exact rational value it denotes (every finite
double is a rational), preserved verbatim by serialization. -/

/-- String match kinds of a `StringMatch` predicate (spec §3). -/
inductive MatchType where
  | EXACT
  | BEGINS_WITH
  | ENDS_WITH
  | CONTAINS
  | FULL_REGEXP
  | PARTIAL_REGEXP
deriving DecidableEq

/-- Comparison operations of a `NumericComparison` predicate (spec §3). -/
inductive NumericOperation where
  | EQUAL
  | LESS_THAN
  | LESS_THAN_OR_EQUAL
  | GREATER_THAN
  | GREATER_THAN_OR_EQUAL
deriving DecidableEq

/-- A tagged numeric value: `Int64(i64)` or `Double(f64)`; exactly one case is
set (spec §3). -/
inductive NumericValue where
  | int64Value (v : Int)
  | doubleValue (v : Rat)
deriving DecidableEq

/-- A predicate on one field (spec §3), with the sub-field names of the proto
`Filter` message. -/
inductive Predicate where
  | stringFilter (matchType : MatchType) (value : List Char) (caseSensitive : Bool)
  | inListFilter (values : List (List Char)) (caseSensitive : Bool)
  | numericFilter (operation : NumericOperation) (value : NumericValue)
  | betweenFilter (fromValue : NumericValue) (toValue : NumericValue)
  | emptyFilter
deriving DecidableEq

mutual

/-- The recursive boolean filter-expression tree (spec §3), with the case
names of the proto `FilterExpression` message: a single-field comparison, a
negation, or an And/Or group of sub-expressions. -/
inductive FilterExpression where
  | filter (fieldName : List Char) (p : Predicate)
  | notExpression (e : FilterExpression)
  | andGroup (es : FEList)
  | orGroup (es : FEList)

/-- An ordered sequence of filter expressions (the operand list of an And/Or
group). -/
inductive FEList where
  | nil
  | cons (e : FilterExpression) (es : FEList)

end

/-- Whether an operand list is empty. -/
def FEList.isNil : FEList → Bool
  | .nil => true
  | .cons _ _ => false

mutual

/-- A tree is validly constructed when every And/Or group in it has at least
one operand (spec §3: operand lists have length ≥ 1). -/
def validFE : FilterExpression → Bool
  | .filter _ _ => true
  | .notExpression e => validFE e
  | .andGroup es => !es.isNil && validFEList es
  | .orGroup es => !es.isNil && validFEList es

/-- All expressions of an operand list are validly constructed. -/
def validFEList : FEList → Bool
  | .nil => true
  | .cons e es => validFE e && validFEList es

end

mutual

/-- A JSON-shaped document: the target of canonical serialization. -/
inductive Json where
  | jbool (b : Bool)
  | jint (n : Int)
  | jnum (q : Rat)
  | jstr (s : List Char)
  | jarr (xs : JsonList)
  | jobj (fs : JsonObj)

/-- The elements of a JSON array. -/
inductive JsonList where
  | jnil
  | jcons (j : Json) (js : JsonList)

/-- The key/value fields of a JSON object, in order. -/
inductive JsonObj where
  | onil
  | ocons (key : List Char) (value : Json) (fs : JsonObj)

end

/-! Field-name constants (proto field names, as in `metadata.py`). -/

def kFilter : List Char := "filter".data
def kNotExpression : List Char := "not_expression".data
def kAndGroup : List Char := "and_group".data
def kOrGroup : List Char := "or_group".data
def kExpressions : List Char := "expressions".data
def kFieldName : List Char := "field_name".data
def kStringFilter : List Char := "string_filter".data
def kInListFilter : List Char := "in_list_filter".data
def kNumericFilter : List Char := "numeric_filter".data
def kBetweenFilter : List Char := "between_filter".data
def kEmptyFilter : List Char := "empty_filter".data
def kMatchType : List Char := "match_type".data
def kValue : List Char := "value".data
def kCaseSensitive : List Char := "case_sensitive".data
def kValues : List Char := "values".data
def kOperation : List Char := "operation".data
def kFromValue : List Char := "from_value".data
def kToValue : List Char := "to_value".data
def kInt64Value : List Char := "int64_value".data
def kDoubleValue : List Char := "double_value".data

/-- Symbolic name of a match type (enums serialize as symbolic names, §4.2). -/
def matchTypeName : MatchType → List Char
  | .EXACT => "EXACT".data
  | .BEGINS_WITH => "BEGINS_WITH".data
  | .ENDS_WITH => "ENDS_WITH".data
  | .CONTAINS => "CONTAINS".data
  | .FULL_REGEXP => "FULL_REGEXP".data
  | .PARTIAL_REGEXP => "PARTIAL_REGEXP".data

/-- Parse a symbolic match-type name. -/
def matchTypeOfName (s : List Char) : Option MatchType :=
  if s = "EXACT".data then some .EXACT
  else if s = "BEGINS_WITH".data then some .BEGINS_WITH
  else if s = "ENDS_WITH".data then some .ENDS_WITH
  else if s = "CONTAINS".data then some .CONTAINS
  else if s = "FULL_REGEXP".data then some .FULL_REGEXP
  else if s = "PARTIAL_REGEXP".data then some .PARTIAL_REGEXP
  else none

/-- Symbolic name of a numeric operation. -/
def operationName : NumericOperation → List Char
  | .EQUAL => "EQUAL".data
  | .LESS_THAN => "LESS_THAN".data
  | .LESS_THAN_OR_EQUAL => "LESS_THAN_OR_EQUAL".data
  | .GREATER_THAN => "GREATER_THAN".data
  | .GREATER_THAN_OR_EQUAL => "GREATER_THAN_OR_EQUAL".data

/-- Parse a symbolic numeric-operation name. -/
def operationOfName (s : List Char) : Option NumericOperation :=
  if s = "EQUAL".data then some .EQUAL
  else if s = "LESS_THAN".data then some .LESS_THAN
  else if s = "LESS_THAN_OR_EQUAL".data then some .LESS_THAN_OR_EQUAL
  else if s = "GREATER_THAN".data then some .GREATER_THAN
  else if s = "GREATER_THAN_OR_EQUAL".data then some .GREATER_THAN_OR_EQUAL
  else none

/-- Canonical serialization of a tagged numeric value: an object with exactly
the one populated sub-field. -/
def numericValueJson : NumericValue → Json
  | .int64Value v => .jobj (.ocons kInt64Value (.jint v) .onil)
  | .doubleValue v => .jobj (.ocons kDoubleValue (.jnum v) .onil)

/-- Parse a tagged numeric value; fails unless exactly one of the two
sub-fields is present (§4.1: AmbiguousNumericValue otherwise). -/
def numericValueOfJson : Json → Option NumericValue
  | .jobj (.ocons k (.jint v) .onil) =>
    if k = kInt64Value then some (.int64Value v) else none
  | .jobj (.ocons k (.jnum v) .onil) =>
    if k = kDoubleValue then some (.doubleValue v) else none
  | _ => none

/-- Serialize a list of strings as a JSON array of strings. -/
def stringListJson : List (List Char) → JsonList
  | [] => .jnil
  | s :: ss => .jcons (.jstr s) (stringListJson ss)

/-- Parse a JSON array of strings. -/
def stringListOfJson : JsonList → Option (List (List Char))
  | .jnil => some []
  | .jcons (.jstr s) ss => (stringListOfJson ss).map (fun r => s :: r)
  | .jcons _ _ => none

/-- The discriminator key under which a predicate serializes inside the
`filter` object (exactly one of the five sub-fields is populated). -/
def predicateKey : Predicate → List Char
  | .stringFilter _ _ _ => kStringFilter
  | .inListFilter _ _ => kInListFilter
  | .numericFilter _ _ => kNumericFilter
  | .betweenFilter _ _ => kBetweenFilter
  | .emptyFilter => kEmptyFilter

/-- Canonical serialization of a predicate's body. -/
def predicateJson : Predicate → Json
  | .stringFilter mt v cs =>
    .jobj (.ocons kMatchType (.jstr (matchTypeName mt))
      (.ocons kValue (.jstr v) (.ocons kCaseSensitive (.jbool cs) .onil)))
  | .inListFilter vs cs =>
    .jobj (.ocons kValues (.jarr (stringListJson vs))
      (.ocons kCaseSensitive (.jbool cs) .onil))
  | .numericFilter op v =>
    .jobj (.ocons kOperation (.jstr (operationName op))
      (.ocons kValue (numericValueJson v) .onil))
  | .betweenFilter fv tv =>
    .jobj (.ocons kFromValue (numericValueJson fv)
      (.ocons kToValue (numericValueJson tv) .onil))
  | .emptyFilter => .jobj .onil

/-- The predicate discriminators, for key dispatch in the parser. -/
inductive PredKeyTag where
  | stringFilter
  | inListFilter
  | numericFilter
  | betweenFilter
  | emptyFilter
deriving DecidableEq

/-- Recognize a predicate discriminator key. -/
def predKeyOf (s : List Char) : Option PredKeyTag :=
  if s = kStringFilter then some .stringFilter
  else if s = kInListFilter then some .inListFilter
  else if s = kNumericFilter then some .numericFilter
  else if s = kBetweenFilter then some .betweenFilter
  else if s = kEmptyFilter then some .emptyFilter
  else none

/-- Parse a predicate from its discriminator key and body (§4.1: fails on a
missing or unknown discriminator or a malformed body). -/
def parsePredicate (pk : List Char) (pv : Json) : Option Predicate :=
  match predKeyOf pk with
  | some .stringFilter =>
    match pv with
    | .jobj (.ocons a (.jstr mt) (.ocons b (.jstr v)
        (.ocons c (.jbool cs) .onil))) =>
      if a = kMatchType ∧ b = kValue ∧ c = kCaseSensitive then
        (matchTypeOfName mt).map (fun m => .stringFilter m v cs)
      else none
    | _ => none
  | some .inListFilter =>
    match pv with
    | .jobj (.ocons a (.jarr vs) (.ocons b (.jbool cs) .onil)) =>
      if a = kValues ∧ b = kCaseSensitive then
        (stringListOfJson vs).map (fun l => .inListFilter l cs)
      else none
    | _ => none
  | some .numericFilter =>
    match pv with
    | .jobj (.ocons a (.jstr opName) (.ocons b nv .onil)) =>
      if a = kOperation ∧ b = kValue then
        match operationOfName opName, numericValueOfJson nv with
        | some op, some v => some (.numericFilter op v)
        | _, _ => none
      else none
    | _ => none
  | some .betweenFilter =>
    match pv with
    | .jobj (.ocons a fv (.ocons b tv .onil)) =>
      if a = kFromValue ∧ b = kToValue then
        match numericValueOfJson fv, numericValueOfJson tv with
        | some f, some t => some (.betweenFilter f t)
        | _, _ => none
      else none
    | _ => none
  | some .emptyFilter =>
    match pv with
    | .jobj .onil => some .emptyFilter
    | _ => none
  | none => none

/-- The expression discriminators, for key dispatch in the parser. -/
inductive NodeKeyTag where
  | filter
  | notExpression
  | andGroup
  | orGroup
deriving DecidableEq

/-- Recognize an expression discriminator key. -/
def nodeKeyOf (s : List Char) : Option NodeKeyTag :=
  if s = kFilter then some .filter
  else if s = kNotExpression then some .notExpression
  else if s = kAndGroup then some .andGroup
  else if s = kOrGroup then some .orGroup
  else none

mutual

/-- Canonical serialization of a filter-expression tree (§4.2):
deterministic, with proto field names as keys and symbolic enum names. -/
def serializeFE : FilterExpression → Json
  | .filter f p =>
    .jobj (.ocons kFilter
      (.jobj (.ocons kFieldName (.jstr f)
        (.ocons (predicateKey p) (predicateJson p) .onil))) .onil)
  | .notExpression e => .jobj (.ocons kNotExpression (serializeFE e) .onil)
  | .andGroup es =>
    .jobj (.ocons kAndGroup
      (.jobj (.ocons kExpressions (.jarr (serializeFEList es)) .onil)) .onil)
  | .orGroup es =>
    .jobj (.ocons kOrGroup
      (.jobj (.ocons kExpressions (.jarr (serializeFEList es)) .onil)) .onil)

/-- Serialize an operand list to a JSON array. -/
def serializeFEList : FEList → JsonList
  | .nil => .jnil
  | .cons e es => .jcons (serializeFE e) (serializeFEList es)

end

mutual

/-- Discriminator-based parser of a filter-expression tree (§4.1/§9):
the document must be an object with exactly one known discriminator key;
an And/Or group with zero operands is rejected (EmptyGroup). -/
def parseFE : Json → Option FilterExpression
  | .jobj (.ocons k v .onil) =>
    match nodeKeyOf k with
    | some .filter =>
      match v with
      | .jobj (.ocons k1 (.jstr f) (.ocons pk pv .onil)) =>
        if k1 = kFieldName then
          (parsePredicate pk pv).map (fun p => .filter f p)
        else none
      | _ => none
    | some .notExpression => (parseFE v).map (fun e => .notExpression e)
    | some .andGroup =>
      match v with
      | .jobj (.ocons k2 (.jarr xs) .onil) =>
        if k2 = kExpressions then
          match parseFEList xs with
          | some es => if es.isNil then none else some (.andGroup es)
          | none => none
        else none
      | _ => none
    | some .orGroup =>
      match v with
      | .jobj (.ocons k2 (.jarr xs) .onil) =>
        if k2 = kExpressions then
          match parseFEList xs with
          | some es => if es.isNil then none else some (.orGroup es)
          | none => none
        else none
      | _ => none
    | none => none
  | _ => none

/-- Parse a JSON array of filter expressions. -/
def parseFEList : JsonList → Option FEList
  | .jnil => some FEList.nil
  | .jcons j js =>
    match parseFE j, parseFEList js with
    | some e, some es => some (.cons e es)
    | _, _ => none

end

/-! ### Concrete instances used in the claim theorems -/

/-- The claim's notion of a valid property identifier, stated from the claim's
words for comparison with the source function: a positive integer, a digit
string with surrounding whitespace permitted, or a string of the exact form
`properties/<digits>`. -/
def claimValidPropertyId : PropValue → Bool
  | .int n => decide (0 < n)
  | .str s => pyIsDigit (pyStrip s) ||
      (listStartsWith propertiesSlash s && pyIsDigit (s.drop propertiesSlash.length))

/-- `run_realtime_report` arguments with `limit = 250001`. -/
def argsLimit250001 : RunRealtimeReportArgs :=
  ⟨.int 123, ["eventName".data], ["eventCount".data], none, none, none,
    some 250001, none, false⟩

/-- `run_realtime_report` arguments with `limit = 250000`. -/
def argsLimit250000 : RunRealtimeReportArgs :=
  ⟨.int 123, ["eventName".data], ["eventCount".data], none, none, none,
    some 250000, none, false⟩

/-- The request assembled from `argsLimit250001`. -/
def reqLimit250001 : RunRealtimeReportRequest :=
  ⟨"properties/123".data, ["eventName".data], ["eventCount".data], false,
    none, none, [], 250001, 0⟩

/-- The caller mapping `{"and_group": {"expressions": []}}`: an And group
with zero operands. -/
def emptyAndGroupDict : RawValue :=
  .dict [(kAndGroup, .dict [(kExpressions, .list [])])]

/-- `run_realtime_report` arguments whose `dimension_filter` contains an And
group with zero operands. -/
def argsEmptyGroup : RunRealtimeReportArgs :=
  ⟨.int 123, ["eventName".data], ["eventCount".data], some emptyAndGroupDict,
    none, none, none, none, false⟩

/-- The request assembled from `argsEmptyGroup`: the empty And group is
forwarded verbatim. -/
def reqEmptyGroup : RunRealtimeReportRequest :=
  ⟨"properties/123".data, ["eventName".data], ["eventCount".data], false,
    some emptyAndGroupDict, none, [], 0, 0⟩

/-- The order-by mapping `{"metric": {"metric_name": "activeUsers"}}`. -/
def orderByActiveUsers : RawValue :=
  .dict [("metric".data, .dict [("metric_name".data, .str "activeUsers".data)])]

/-- The scenario of the order-by claim: `dimensions = ["eventName"]`,
`metrics = ["eventCount"]`, ordering by the unrequested metric
`activeUsers`. -/
def argsOrderByNotRequested : RunRealtimeReportArgs :=
  ⟨.int 123, ["eventName".data], ["eventCount".data], none, none,
    some [orderByActiveUsers], none, none, false⟩

/-- The request assembled from `argsOrderByNotRequested`: the order-by naming
the unrequested metric is forwarded verbatim. -/
def reqOrderByNotRequested : RunRealtimeReportRequest :=
  ⟨"properties/123".data, ["eventName".data], ["eventCount".data], false,
    none, none, [orderByActiveUsers], 0, 0⟩

/-- Arguments with an invalid property id, for the fail-fast witnesses. -/
def argsBadProperty : RunRealtimeReportArgs :=
  ⟨.str "abc".data, ["eventName".data], ["eventCount".data], none, none,
    none, none, none, false⟩

/-- A stub remote collaborator, returning an empty response mapping. -/
def remoteStub {α : Type} : α → RawValue := fun _ => .dict []

/-- A validly constructed sample tree for the round-trip witness. -/
def sampleTree : FilterExpression :=
  .andGroup (.cons (.filter "eventName".data
      (.stringFilter .EXACT "page_view".data true))
    (.cons (.notExpression (.filter "purchaseRevenue".data
      (.numericFilter .GREATER_THAN (.int64Value 10)))) .nil))

/-! ### Helper lemmas on characters, digits and the string primitives -/

theorem isWhitespace_eq_false_of_isDigit {c : Char} (h : c.isDigit = true) :
    c.isWhitespace = false := by
  simp only [Char.isDigit, Bool.and_eq_true, decide_eq_true_eq] at h
  simp only [Char.isWhitespace, Bool.or_eq_false_iff, decide_eq_false_iff_not]
  refine ⟨⟨⟨?_, ?_⟩, ?_⟩, ?_⟩ <;> rintro rfl <;> revert h <;> decide

theorem ne_slash_of_isDigit {c : Char} (h : c.isDigit = true) : (c != '/') = true := by
  simp only [bne_iff_ne, ne_eq]
  rintro rfl
  revert h
  decide

theorem toNat_digitChar {m : Nat} (h : m < 10) : (Char.ofNat (48 + m)).toNat = 48 + m := by
  interval_cases m <;> decide

theorem isDigit_digitChar {m : Nat} (h : m < 10) : (Char.ofNat (48 + m)).isDigit = true := by
  interval_cases m <;> decide

theorem dropWhile_eq_self_of_all_neg {p : Char → Bool} :
    ∀ l : List Char, l.all (fun c => !p c) = true → l.dropWhile p = l := by
  intro l h
  induction l with
  | nil => rfl
  | cons a l ih =>
    simp only [List.all_cons, Bool.and_eq_true, Bool.not_eq_true'] at h
    simp [List.dropWhile_cons, h.1, ih h.2]

theorem takeWhile_append_of_all {p : Char → Bool} :
    ∀ l1 l2 : List Char, l1.all p = true →
      (l1 ++ l2).takeWhile p = l1 ++ l2.takeWhile p := by
  intro l1 l2 h
  induction l1 with
  | nil => simp
  | cons a l ih =>
    simp only [List.all_cons, Bool.and_eq_true] at h
    simp [List.takeWhile_cons, h.1, ih h.2]

theorem pyStrip_eq_self_of_all {l : List Char}
    (h : l.all (fun c => !c.isWhitespace) = true) : pyStrip l = l := by
  unfold pyStrip
  rw [dropWhile_eq_self_of_all_neg l h,
    dropWhile_eq_self_of_all_neg l.reverse (by simpa using h), List.reverse_reverse]

theorem all_not_whitespace_of_all_digits {ds : List Char}
    (h : ds.all Char.isDigit = true) :
    ds.all (fun c => !c.isWhitespace) = true := by
  rw [List.all_eq_true] at *
  intro c hc
  simpa using isWhitespace_eq_false_of_isDigit (h c hc)

theorem listStartsWith_append (p t : List Char) : listStartsWith p (p ++ t) = true := by
  induction p with
  | nil => rfl
  | cons a l ih => simp [listStartsWith, ih]

theorem pyStrip_properties_append {ds : List Char} (h : ds.all Char.isDigit = true) :
    pyStrip (propertiesSlash ++ ds) = propertiesSlash ++ ds := by
  apply pyStrip_eq_self_of_all
  rw [List.all_append, Bool.and_eq_true]
  exact ⟨by decide, all_not_whitespace_of_all_digits h⟩

theorem lastSegment_properties_append {ds : List Char} (h : ds.all Char.isDigit = true) :
    lastSegment (propertiesSlash ++ ds) = ds := by
  unfold lastSegment
  rw [List.reverse_append]
  rw [takeWhile_append_of_all _ _ (by
    rw [List.all_eq_true] at *
    intro c hc
    exact ne_slash_of_isDigit (h c (List.mem_reverse.mp hc)))]
  have hstop : List.takeWhile (fun c => c != '/') propertiesSlash.reverse = [] := by decide
  rw [hstop, List.append_nil, List.reverse_reverse]

theorem pyIsDigit_properties_append (ds : List Char) :
    pyIsDigit (propertiesSlash ++ ds) = false := by
  have hshape : propertiesSlash ++ ds = 'p' :: ("roperties/".data ++ ds) := rfl
  have hp : Char.isDigit 'p' = false := by decide
  rw [hshape]
  simp [pyIsDigit, List.all_cons, hp]

/-! ### Decimal formatting lemmas -/

theorem digitsToNat_append_singleton (xs : List Char) (c : Char) :
    digitsToNat (xs ++ [c]) = digitsToNat xs * 10 + (c.toNat - 48) := by
  simp [digitsToNat, List.foldl_append]

theorem natToCharsAux_all_digits : ∀ fuel n : Nat,
    (natToCharsAux fuel n).all Char.isDigit = true := by
  intro fuel
  induction fuel with
  | zero => intro n; rfl
  | succ fuel ih =>
    intro n
    unfold natToCharsAux
    by_cases h : n < 10
    · simp [h, List.all_cons, isDigit_digitChar h]
    · simp only [h, if_false, List.all_append, List.all_cons, List.all_nil]
      rw [Bool.and_eq_true]
      exact ⟨ih _, by simp [isDigit_digitChar (Nat.mod_lt n (by omega))]⟩

theorem natToChars_all_digits (n : Nat) : (natToChars n).all Char.isDigit = true :=
  natToCharsAux_all_digits (n + 1) n

theorem natToCharsAux_ne_nil (fuel n : Nat) : natToCharsAux (fuel + 1) n ≠ [] := by
  unfold natToCharsAux
  by_cases h : n < 10 <;> simp [h]

theorem pyIsDigit_natToChars (n : Nat) : pyIsDigit (natToChars n) = true := by
  unfold pyIsDigit
  rw [Bool.and_eq_true]
  exact ⟨by simpa [List.isEmpty_iff] using natToCharsAux_ne_nil n n, natToChars_all_digits n⟩

theorem digitsToNat_natToCharsAux : ∀ fuel n : Nat, n < fuel →
    digitsToNat (natToCharsAux fuel n) = n := by
  intro fuel
  induction fuel with
  | zero => omega
  | succ fuel ih =>
    intro n hn
    unfold natToCharsAux
    by_cases h : n < 10
    · have : digitsToNat [Char.ofNat (48 + n)] = (Char.ofNat (48 + n)).toNat - 48 := by
        simp [digitsToNat]
      simp [h, this, toNat_digitChar h]
    · have hdiv : n / 10 < fuel := by omega
      simp only [h, if_false, digitsToNat_append_singleton, ih _ hdiv,
        toNat_digitChar (Nat.mod_lt n (by omega))]
      omega

theorem digitsToNat_natToChars (n : Nat) : digitsToNat (natToChars n) = n :=
  digitsToNat_natToCharsAux (n + 1) n (Nat.lt_succ_self n)

theorem intToChars_natCast (k : Nat) : intToChars (k : Int) = natToChars k := by
  unfold intToChars
  rw [if_neg (by omega)]
  simp

/-! ### Shared characterization of `construct_property_rn` on resource names -/

theorem construct_properties_append {ds : List Char} (h : pyIsDigit ds = true) :
    construct_property_rn (.str (propertiesSlash ++ ds)) =
      .ok (propertiesSlash ++ natToChars (digitsToNat ds)) := by
  have hall : ds.all Char.isDigit = true := by
    have h' := h
    unfold pyIsDigit at h'
    rw [Bool.and_eq_true] at h'
    exact h'.2
  simp [construct_property_rn, pyStrip_properties_append hall,
    pyIsDigit_properties_append, listStartsWith_append,
    lastSegment_properties_append hall, h, formatPropertyRn, intToChars_natCast]

/-! ### Claim theorems: property-identifier normalization -/

/-- **C1 (counterexample)**: the string `"properties/1/2"` is none of the three
valid identifier shapes of the claim (positive integer, digit string with
surrounding whitespace, `properties/<digits>`), yet `construct_property_rn`
accepts it, returning `"properties/2"` instead of failing with
InvalidPropertyId. -/
theorem C1_counterexample :
    claimValidPropertyId (.str "properties/1/2".data) = false ∧
    construct_property_rn (.str "properties/1/2".data) = .ok "properties/2".data :=
  ⟨by decide, rfl⟩

/-- **C1 (amended)**: for every valid property identifier — positive integer,
digit string with surrounding whitespace, or `properties/<digits>` —
`construct_property_rn` returns `"properties/<digits>"` with `<digits>` the
numeric value; every other string fails with InvalidPropertyId **unless** its
stripped form starts with `"properties/"` and its final `"/"`-separated
segment is all digits, in which case that segment's numeric value is used. -/
theorem C1_thm :
    (∀ n : Int, 0 < n →
      construct_property_rn (.int n) = .ok (propertiesSlash ++ natToChars n.toNat)) ∧
    (∀ s : List Char, pyIsDigit (pyStrip s) = true →
      construct_property_rn (.str s) =
        .ok (propertiesSlash ++ natToChars (digitsToNat (pyStrip s)))) ∧
    (∀ ds : List Char, pyIsDigit ds = true →
      construct_property_rn (.str (propertiesSlash ++ ds)) =
        .ok (propertiesSlash ++ natToChars (digitsToNat ds))) ∧
    (∀ s : List Char, claimValidPropertyId (.str s) = false →
      (listStartsWith propertiesSlash (pyStrip s) &&
        pyIsDigit (lastSegment (pyStrip s))) = false →
      construct_property_rn (.str s) = .error (.invalidPropertyId (pyStrip s))) := by
  refine ⟨?_, ?_, ?_, ?_⟩
  · intro n h
    simp only [construct_property_rn, formatPropertyRn, intToChars]
    rw [if_neg (by omega)]
  · intro s h
    simp [construct_property_rn, h, formatPropertyRn, intToChars_natCast]
  · intro ds h
    exact construct_properties_append h
  · intro s hcv hsec
    have h1 : pyIsDigit (pyStrip s) = false := by
      unfold claimValidPropertyId at hcv
      rw [Bool.or_eq_false_iff] at hcv
      exact hcv.1
    simp only [construct_property_rn]
    rw [if_neg (by simp [h1])]
    cases h2 : listStartsWith propertiesSlash (pyStrip s) with
    | false => rw [if_neg (by simp [h2])]
    | true =>
      have h3 : pyIsDigit (lastSegment (pyStrip s)) = false := by
        rw [h2] at hsec
        simpa using hsec
      rw [if_pos (by simp [h2]), if_neg (by simp [h3])]

/-- **C1 (witness)**: `123`, `"  123  "` and `"properties/123"` all normalize
to `"properties/123"`, and the invalid string `"properties//"` fails with
InvalidPropertyId. -/
theorem C1_thm_witness :
    construct_property_rn (.int 123) = .ok "properties/123".data ∧
    construct_property_rn (.str "  123  ".data) = .ok "properties/123".data ∧
    construct_property_rn (.str "properties/123".data) = .ok "properties/123".data ∧
    construct_property_rn (.str "properties//".data) =
      .error (.invalidPropertyId "properties//".data) :=
  ⟨C1_thm.1 123 (by decide), C1_thm.2.1 "  123  ".data (by decide),
    C1_thm.2.2.1 "123".data (by decide),
    C1_thm.2.2.2 "properties//".data (by decide) (by decide)⟩

/-- **C8 (counterexample)**: `"properties/007"` is of the documented form
`properties/<digits>`, but it is not accepted verbatim: the returned resource
name is `"properties/7"`, not the input string unchanged. -/
theorem C8_counterexample :
    construct_property_rn (.str "properties/007".data) = .ok "properties/7".data ∧
    "properties/7".data ≠ "properties/007".data :=
  ⟨rfl, by decide⟩

/-- **C8 (amended)**: a string of the form `properties/<digits>` is accepted,
but the returned resource name is recomputed from the numeric value of
`<digits>` (leading zeros are dropped) rather than kept verbatim; exactly the
canonical numerals — `properties/<digits>` with `<digits>` the decimal
rendering of a natural number — are returned unchanged. -/
theorem C8_thm :
    (∀ ds : List Char, pyIsDigit ds = true →
      construct_property_rn (.str (propertiesSlash ++ ds)) =
        .ok (propertiesSlash ++ natToChars (digitsToNat ds))) ∧
    (∀ n : Nat, construct_property_rn (.str (propertiesSlash ++ natToChars n)) =
      .ok (propertiesSlash ++ natToChars n)) :=
  ⟨fun _ h => construct_properties_append h,
    fun n => by
      rw [construct_properties_append (pyIsDigit_natToChars n), digitsToNat_natToChars]⟩

/-- **C8 (witness)**: `"properties/007"` normalizes to `"properties/7"`, and
the canonical `"properties/7"` is returned unchanged. -/
theorem C8_thm_witness :
    construct_property_rn (.str "properties/007".data) =
      .ok (propertiesSlash ++ natToChars (digitsToNat "007".data)) ∧
    construct_property_rn (.str "properties/7".data) = .ok "properties/7".data :=
  ⟨C8_thm.1 "007".data (by decide), C8_thm.2 7⟩

/-- **C10**: `construct_property_rn` accepts exactly: every integer (with no
positivity check, formatted as `properties/<n>`); every string whose stripped
form is all digits; and every string whose stripped form starts with
`"properties/"` and whose final `"/"`-separated segment is all digits.
InvalidPropertyId is only raised for string inputs, naming the stripped
rejected value; `"properties/1/2"` is accepted and normalizes to
`"properties/2"`. -/
theorem C10_thm :
    (∀ n : Int, construct_property_rn (.int n) = .ok (propertiesSlash ++ intToChars n)) ∧
    (∀ s : List Char, (construct_property_rn (.str s)).isOk =
      (pyIsDigit (pyStrip s) ||
        (listStartsWith propertiesSlash (pyStrip s) &&
          pyIsDigit (lastSegment (pyStrip s))))) ∧
    (∀ s : List Char, (construct_property_rn (.str s)).isOk = false →
      construct_property_rn (.str s) = .error (.invalidPropertyId (pyStrip s))) ∧
    construct_property_rn (.str "properties/1/2".data) = .ok "properties/2".data := by
  refine ⟨fun n => rfl, ?_, ?_, rfl⟩
  · intro s
    simp only [construct_property_rn]
    cases h1 : pyIsDigit (pyStrip s) <;>
      cases h2 : listStartsWith propertiesSlash (pyStrip s) <;>
        cases h3 : pyIsDigit (lastSegment (pyStrip s)) <;>
          simp [h1, h2, h3, Except.isOk, Except.toBool]
  · intro s h
    simp only [construct_property_rn] at h ⊢
    cases h1 : pyIsDigit (pyStrip s) <;>
      cases h2 : listStartsWith propertiesSlash (pyStrip s) <;>
        cases h3 : pyIsDigit (lastSegment (pyStrip s)) <;>
          simp [h1, h2, h3, Except.isOk, Except.toBool] at h ⊢

/-- **C10 (witness)**: a negative integer is accepted with no positivity
check, and a non-numeric string fails with InvalidPropertyId naming the
value. -/
theorem C10_thm_witness :
    construct_property_rn (.int (-5)) = .ok "properties/-5".data ∧
    construct_property_rn (.str "abc".data) =
      .error (.invalidPropertyId "abc".data) :=
  ⟨C10_thm.1 (-5), C10_thm.2.2.1 "abc".data rfl⟩

/-! ### Claim theorems: realtime-report assembly -/

/-- **C2 (counterexample)**: with `limit = 250001` the call does not fail with
InvalidLimit before a network call; the request is assembled with
`limit = 250001` and sent to the remote service. -/
theorem C2_counterexample :
    run_realtime_report_assemble argsLimit250001 = .ok reqLimit250001 ∧
    run_realtime_report_run remoteStub argsLimit250001 =
      (.ok (.dict []), [reqLimit250001]) :=
  ⟨rfl, rfl⟩

/-- **C2 (amended)**: the code performs no local limit validation: assembly
succeeds exactly when the property id normalizes, for every provided `limit`
value, and a truthy `limit` is copied into the outbound request unchanged
(range enforcement is delegated to the remote service). -/
theorem C2_thm :
    (∀ a : RunRealtimeReportArgs,
      (run_realtime_report_assemble a).isOk =
        (construct_property_rn a.property_id).isOk) ∧
    (∀ (a : RunRealtimeReportArgs) (r : RunRealtimeReportRequest),
      run_realtime_report_assemble a = .ok r →
      r.limit = (if pyTruthyOptInt a.limit then a.limit.getD 0 else 0)) := by
  constructor
  · intro a
    cases h : construct_property_rn a.property_id <;>
      simp [run_realtime_report_assemble, h, Except.isOk, Except.toBool]
  · intro a r hr
    simp only [run_realtime_report_assemble] at hr
    cases h : construct_property_rn a.property_id with
    | error e => rw [h] at hr; cases hr
    | ok prop => rw [h] at hr; cases hr; rfl

/-- **C2 (witness)**: assembly succeeds with `limit = 250000`, and the request
assembled with `limit = 250001` carries that limit. -/
theorem C2_thm_witness :
    (run_realtime_report_assemble argsLimit250000).isOk = true ∧
    reqLimit250001.limit =
      (if pyTruthyOptInt argsLimit250001.limit then
        argsLimit250001.limit.getD 0 else 0) :=
  ⟨by rw [C2_thm.1 argsLimit250000]; rfl,
    C2_thm.2 argsLimit250001 reqLimit250001 rfl⟩

/-- **C3 (counterexample)**: a `dimension_filter` containing an And group with
zero operands does not fail with EmptyGroup: assembly succeeds, the empty
group is placed in the outbound request verbatim, and the request is sent. -/
theorem C3_counterexample :
    run_realtime_report_assemble argsEmptyGroup = .ok reqEmptyGroup ∧
    run_realtime_report_run remoteStub argsEmptyGroup =
      (.ok (.dict []), [reqEmptyGroup]) :=
  ⟨rfl, rfl⟩

/-- **C3 (amended)**: the code performs no group-emptiness validation: any
truthy filter argument is forwarded verbatim into the outbound request
(rejection of empty groups, if any, comes from the remote service). In the
spec-modelled validator, an And/Or group with zero operands is invalid and
its document is rejected by the parser. -/
theorem C3_thm :
    (∀ (a : RunRealtimeReportArgs) (r : RunRealtimeReportRequest),
      run_realtime_report_assemble a = .ok r →
      r.dimension_filter =
        (if pyTruthyOpt a.dimension_filter then a.dimension_filter else none) ∧
      r.metric_filter =
        (if pyTruthyOpt a.metric_filter then a.metric_filter else none)) ∧
    validFE (.andGroup .nil) = false ∧
    validFE (.orGroup .nil) = false ∧
    parseFE (serializeFE (.andGroup .nil)) = none ∧
    parseFE (serializeFE (.orGroup .nil)) = none := by
  refine ⟨?_, rfl, rfl, rfl, rfl⟩
  intro a r hr
  simp only [run_realtime_report_assemble] at hr
  cases h : construct_property_rn a.property_id with
  | error e => rw [h] at hr; cases hr
  | ok prop => rw [h] at hr; cases hr; exact ⟨rfl, rfl⟩

/-- **C3 (witness)**: the empty-And-group filter mapping is forwarded
verbatim in the assembled request. -/
theorem C3_thm_witness :
    reqEmptyGroup.dimension_filter =
      (if pyTruthyOpt argsEmptyGroup.dimension_filter then
        argsEmptyGroup.dimension_filter else none) ∧
    reqEmptyGroup.metric_filter =
      (if pyTruthyOpt argsEmptyGroup.metric_filter then
        argsEmptyGroup.metric_filter else none) :=
  C3_thm.1 argsEmptyGroup reqEmptyGroup rfl

/-- **C4 (counterexample)**: ordering by the unrequested metric `activeUsers`
does not fail with OrderByFieldNotRequested: assembly succeeds, the order-by
is forwarded verbatim and the request is sent to the remote service. -/
theorem C4_counterexample :
    run_realtime_report_assemble argsOrderByNotRequested =
      .ok reqOrderByNotRequested ∧
    run_realtime_report_run remoteStub argsOrderByNotRequested =
      (.ok (.dict []), [reqOrderByNotRequested]) :=
  ⟨rfl, rfl⟩

/-- **C4 (amended)**: the code performs no local order-by validation: a truthy
`order_bys` list is copied into the outbound request verbatim, without
comparison against the requested dimensions or metrics, and assembly success
is independent of the `order_bys` argument (the subset check is delegated to
the remote service). -/
theorem C4_thm :
    (∀ (a : RunRealtimeReportArgs) (r : RunRealtimeReportRequest),
      run_realtime_report_assemble a = .ok r →
      r.order_bys =
        (if pyTruthyOptList a.order_bys then a.order_bys.getD [] else [])) ∧
    (∀ (a : RunRealtimeReportArgs) (o1 o2 : Option (List RawValue)),
      (run_realtime_report_assemble { a with order_bys := o1 }).isOk =
        (run_realtime_report_assemble { a with order_bys := o2 }).isOk) := by
  constructor
  · intro a r hr
    simp only [run_realtime_report_assemble] at hr
    cases h : construct_property_rn a.property_id with
    | error e => rw [h] at hr; cases hr
    | ok prop => rw [h] at hr; cases hr; rfl
  · intro a o1 o2
    cases h : construct_property_rn a.property_id <;>
      simp [run_realtime_report_assemble, h, Except.isOk, Except.toBool]

/-- **C4 (witness)**: the order-by naming `activeUsers` is forwarded verbatim
in the assembled request of the claim's scenario. -/
theorem C4_thm_witness :
    reqOrderByNotRequested.order_bys =
      (if pyTruthyOptList argsOrderByNotRequested.order_bys then
        argsOrderByNotRequested.order_bys.getD [] else []) :=
  C4_thm.1 argsOrderByNotRequested reqOrderByNotRequested rfl

/-- **C6**: when local validation fails during request assembly, the tool
makes no network call: both `run_realtime_report` and `get_property_details`
propagate the assembly error with an empty list of sent requests. -/
theorem C6_thm :
    (∀ (remote : RunRealtimeReportRequest → RawValue)
      (a : RunRealtimeReportArgs) (e : PropError),
      run_realtime_report_assemble a = .error e →
      run_realtime_report_run remote a = (.error e, [])) ∧
    (∀ (remote : GetPropertyRequest → RawValue) (p : PropValue) (e : PropError),
      get_property_details_assemble p = .error e →
      get_property_details_run remote p = (.error e, [])) := by
  constructor
  · intro remote a e h
    simp [run_realtime_report_run, h]
  · intro remote p e h
    simp [get_property_details_run, h]

/-- **C6 (witness)**: with the invalid property id `"abc"`, both tools fail
with InvalidPropertyId and send no request. -/
theorem C6_thm_witness :
    run_realtime_report_run remoteStub argsBadProperty =
      (.error (.invalidPropertyId "abc".data), []) ∧
    get_property_details_run remoteStub (.str "abc".data) =
      (.error (.invalidPropertyId "abc".data), []) :=
  ⟨C6_thm.1 remoteStub argsBadProperty (.invalidPropertyId "abc".data) rfl,
    C6_thm.2 remoteStub (.str "abc".data) (.invalidPropertyId "abc".data) rfl⟩

/-- **C7**: the paginated listing flattens every page's items into one ordered
sequence, preserving page order and within-page order; the total length is the
sum of the page sizes, and three pages of sizes 2, 0, 3 produce exactly the 5
items in original page/item order. -/
theorem C7_thm :
    (∀ (α : Type) (toDict : α → RawValue) (pages : List (List α)),
      get_account_summaries toDict pages =
        (pages.map (fun page => page.map toDict)).flatten ∧
      (get_account_summaries toDict pages).length =
        (pages.map List.length).sum) ∧
    get_account_summaries (fun n : Int => RawValue.int n) [[0, 1], [], [2, 3, 4]] =
      [.int 0, .int 1, .int 2, .int 3, .int 4] := by
  refine ⟨?_, rfl⟩
  intro α toDict pages
  constructor
  · simp [get_account_summaries, pagerItems, List.map_flatten]
  · simp [get_account_summaries, pagerItems, List.length_flatten,
      Function.comp_def, List.length_map]

/-- **C9**: every falsy optional argument of `run_realtime_report` is treated
as absent: `limit = 0`, `offset = 0`, empty filter mappings and an empty
`order_bys` list each assemble the very same request as the corresponding
`None` argument, with no error raised. -/
theorem C9_thm (a : RunRealtimeReportArgs) :
    run_realtime_report_assemble { a with limit := some 0 } =
      run_realtime_report_assemble { a with limit := none } ∧
    run_realtime_report_assemble { a with offset := some 0 } =
      run_realtime_report_assemble { a with offset := none } ∧
    run_realtime_report_assemble { a with dimension_filter := some (.dict []) } =
      run_realtime_report_assemble { a with dimension_filter := none } ∧
    run_realtime_report_assemble { a with metric_filter := some (.dict []) } =
      run_realtime_report_assemble { a with metric_filter := none } ∧
    run_realtime_report_assemble { a with order_bys := some [] } =
      run_realtime_report_assemble { a with order_bys := none } := by
  refine ⟨?_, ?_, ?_, ?_, ?_⟩ <;>
    cases h : construct_property_rn a.property_id <;>
      simp [run_realtime_report_assemble, h, pyTruthyOpt, pyTruthy,
        pyTruthyOptInt, pyTruthyOptList]

/-! ### Round-trip of the canonical filter-expression serialization -/

theorem predKeyOf_kStringFilter : predKeyOf kStringFilter = some .stringFilter := by decide
theorem predKeyOf_kInListFilter : predKeyOf kInListFilter = some .inListFilter := by decide
theorem predKeyOf_kNumericFilter : predKeyOf kNumericFilter = some .numericFilter := by decide
theorem predKeyOf_kBetweenFilter : predKeyOf kBetweenFilter = some .betweenFilter := by decide
theorem predKeyOf_kEmptyFilter : predKeyOf kEmptyFilter = some .emptyFilter := by decide
theorem nodeKeyOf_kFilter : nodeKeyOf kFilter = some .filter := by decide
theorem nodeKeyOf_kNotExpression : nodeKeyOf kNotExpression = some .notExpression := by decide
theorem nodeKeyOf_kAndGroup : nodeKeyOf kAndGroup = some .andGroup := by decide
theorem nodeKeyOf_kOrGroup : nodeKeyOf kOrGroup = some .orGroup := by decide

theorem matchTypeOfName_matchTypeName (m : MatchType) :
    matchTypeOfName (matchTypeName m) = some m := by
  cases m <;> rfl

theorem operationOfName_operationName (op : NumericOperation) :
    operationOfName (operationName op) = some op := by
  cases op <;> rfl

theorem numericValueOfJson_numericValueJson (v : NumericValue) :
    numericValueOfJson (numericValueJson v) = some v := by
  cases v <;> simp [numericValueJson, numericValueOfJson]

theorem stringListOfJson_stringListJson (ss : List (List Char)) :
    stringListOfJson (stringListJson ss) = some ss := by
  induction ss with
  | nil => rfl
  | cons s ss ih => simp [stringListJson, stringListOfJson, ih]

theorem parsePredicate_serialized (p : Predicate) :
    parsePredicate (predicateKey p) (predicateJson p) = some p := by
  cases p with
  | stringFilter mt v cs =>
    simp [predicateKey, predicateJson, parsePredicate, predKeyOf_kStringFilter,
      matchTypeOfName_matchTypeName]
  | inListFilter vs cs =>
    simp [predicateKey, predicateJson, parsePredicate, predKeyOf_kInListFilter,
      stringListOfJson_stringListJson]
  | numericFilter op v =>
    simp [predicateKey, predicateJson, parsePredicate, predKeyOf_kNumericFilter,
      operationOfName_operationName, numericValueOfJson_numericValueJson]
  | betweenFilter fv tv =>
    simp [predicateKey, predicateJson, parsePredicate, predKeyOf_kBetweenFilter,
      numericValueOfJson_numericValueJson]
  | emptyFilter =>
    simp [predicateKey, predicateJson, parsePredicate, predKeyOf_kEmptyFilter]

mutual

theorem parseFE_serializeFE : ∀ t : FilterExpression, validFE t = true →
    parseFE (serializeFE t) = some t
  | .filter f p, _ => by
    simp [serializeFE, parseFE, nodeKeyOf_kFilter, parsePredicate_serialized]
  | .notExpression e, h => by
    have ih := parseFE_serializeFE e (by simpa [validFE] using h)
    simp [serializeFE, parseFE, nodeKeyOf_kNotExpression, ih]
  | .andGroup es, h => by
    rw [validFE, Bool.and_eq_true, Bool.not_eq_true'] at h
    have ih := parseFEList_serializeFEList es h.2
    simp [serializeFE, parseFE, nodeKeyOf_kAndGroup, ih, h.1]
  | .orGroup es, h => by
    rw [validFE, Bool.and_eq_true, Bool.not_eq_true'] at h
    have ih := parseFEList_serializeFEList es h.2
    simp [serializeFE, parseFE, nodeKeyOf_kOrGroup, ih, h.1]

theorem parseFEList_serializeFEList : ∀ ts : FEList, validFEList ts = true →
    parseFEList (serializeFEList ts) = some ts
  | .nil, _ => rfl
  | .cons e es, h => by
    rw [validFEList, Bool.and_eq_true] at h
    have ih1 := parseFE_serializeFE e h.1
    have ih2 := parseFEList_serializeFEList es h.2
    simp [serializeFEList, parseFEList, ih1, ih2]

end

/-- **C5**: for every validly constructed filter-expression tree, parsing the
canonical serialization yields a tree structurally equal to the original:
`parse (serialize t) = some t`. -/
theorem C5_thm (t : FilterExpression) (h : validFE t = true) :
    parseFE (serializeFE t) = some t :=
  parseFE_serializeFE t h

/-- **C5 (witness)**: the round-trip on a concrete valid tree (an And group of
a string comparison and a negated numeric comparison). -/
theorem C5_thm_witness : parseFE (serializeFE sampleTree) = some sampleTree :=
  C5_thm sampleTree rfl


end GA4
